import Mathlib

/-
Shallow embedding of the ToupBase camera driver (indi-toupbase/indi_toupbase.cpp):
the dual-gain coordinator, the exposure timeout/retry state machine, the frame
delivery pipeline (RGB de-interleave), the guide pulse timers and the ROI update.
Doubles are modelled as rationals, C++ ints as Lean Int/Nat, and hardware (SDK)
calls as boolean success parameters plus emitted events.
-/

namespace ToupBase

/-- State of a single INDI switch: ISS_OFF or ISS_ON. -/
inductive ISState
| off
| on
deriving DecidableEq, Repr

/-- The GainConversionS switch vector with its three switches
GAIN_LOW, GAIN_HIGH, GAIN_HDR. -/
structure GainConversionSwitches where
  low : ISState
  high : ISState
  hdr : ISState
deriving DecidableEq, Repr

/-- Effect of IUResetSwitch on GainConversionSP: every switch turned ISS_OFF. -/
def resetGainSwitches : GainConversionSwitches :=
  ⟨ISState.off, ISState.off, ISState.off⟩

/-- Dual-gain related driver state: the switch vector, the numbers
GainConversionN[TC_HCG_THRESHOLD] and GainConversionN[TC_HCG_LCG_RATIO],
and m_NativeGain. -/
structure GainState where
  switches : GainConversionSwitches
  hcgThreshold : ℚ
  hcgLcgRatio : ℚ
  nativeGain : ℚ
deriving DecidableEq, Repr

/-- A well-formed GainConversionSP switch vector has exactly one switch ON
(the vector is ISR_1OFMANY and IUResetSwitch precedes every set). -/
def oneHotGain (sw : GainConversionSwitches) : Prop :=
  sw = { resetGainSwitches with low := ISState.on } ∨
  sw = { resetGainSwitches with high := ISState.on } ∨
  sw = { resetGainSwitches with hdr := ISState.on }

instance (sw : GainConversionSwitches) : Decidable (oneHotGain sw) := by
  unfold oneHotGain; infer_instance

/-- ToupBase::dualGainEnabled: m_hasDualGain, and the HCG/LCG ratio strictly
above 1.0001, and the GAIN_HDR switch OFF. -/
def dualGainEnabled (hasDualGain : Bool) (st : GainState) : Bool :=
  hasDualGain && decide ((10001 : ℚ) / 10000 < st.hcgLcgRatio) &&
    decide (st.switches.hdr = ISState.off)

/-- ToupBase::setDualGainMode: switch to High conversion gain when the requested
gain reaches the HCG threshold and High is not already on; switch to Low when it
is below the threshold and Low is not already on; then, whenever High is on,
divide the requested gain by the HCG/LCG ratio; record and return the result
as m_NativeGain. -/
def setDualGainMode (st : GainState) (gain : ℚ) : GainState × ℚ :=
  let sw :=
    if st.hcgThreshold ≤ gain ∧ st.switches.high = ISState.off then
      { resetGainSwitches with high := ISState.on }
    else if gain < st.hcgThreshold ∧ st.switches.low = ISState.off then
      { resetGainSwitches with low := ISState.on }
    else st.switches
  let g := if sw.high = ISState.on then gain / st.hcgLcgRatio else gain
  ({ st with switches := sw, nativeGain := g }, g)

/-- Events emitted by the exposure state machine: hardware Trigger(n) and
Snap(resolution) calls, the PrimaryCCD.setExposureFailed signal, and arming
the single-shot capture timeout with a window in milliseconds. -/
inductive CamEvent
| hwTrigger (n : Nat)
| hwSnap (res : Nat)
| exposureFailedSignal
| timerArm (ms : ℚ)
deriving DecidableEq, Repr

/-- Exposure state machine fields of ToupBase: connection state, InExposure,
m_TimeoutRetries, m_CaptureTimeoutCounter, whether m_CaptureTimeout is armed,
ExposureRequest (seconds), m_DownloadEstimation (ms), TimeoutFactorN[0].value,
m_CanSnap and the selected resolution index. -/
structure CamState where
  connected : Bool
  inExposure : Bool
  timeoutRetries : Nat
  captureTimeoutCounter : Nat
  timerArmed : Bool
  exposureRequest : ℚ
  downloadEstimation : ℚ
  timeoutFactor : ℚ
  canSnap : Bool
  resolutionIndex : Nat
deriving DecidableEq, Repr

/-- ToupBase::AbortExposure: issue Trigger(handle, 0), clear InExposure,
zero m_TimeoutRetries and m_CaptureTimeoutCounter, stop m_CaptureTimeout,
and return true. -/
def AbortExposure (s : CamState) : CamState × List CamEvent × Bool :=
  ({ s with inExposure := false, timeoutRetries := 0, captureTimeoutCounter := 0,
            timerArmed := false },
   [CamEvent.hwTrigger 0], true)

/-- ToupBase::captureTimeoutHandler: return if disconnected; increment
m_CaptureTimeoutCounter; at 3 or more, zero the counter and signal
setExposureFailed without re-arming; below 3, re-issue Snap (when m_CanSnap;
on snap failure return without re-arming) and Trigger(1) (on failure return
without re-arming), then restart the timeout with window
ExposureRequest * 1000 + m_DownloadEstimation * TimeoutFactorN[0].value.
Hardware call results are the parameters snapOk and trigOk. -/
def captureTimeoutHandler (snapOk trigOk : Bool) (s : CamState) :
    CamState × List CamEvent :=
  if s.connected = false then (s, [])
  else
    let s1 := { s with captureTimeoutCounter := s.captureTimeoutCounter + 1 }
    if 3 ≤ s1.captureTimeoutCounter then
      ({ s1 with captureTimeoutCounter := 0 }, [CamEvent.exposureFailedSignal])
    else if s1.canSnap && !snapOk then
      (s1, [CamEvent.hwSnap s1.resolutionIndex])
    else
      let evs := if s1.canSnap then [CamEvent.hwSnap s1.resolutionIndex] else []
      if !trigOk then (s1, evs ++ [CamEvent.hwTrigger 1])
      else
        ({ s1 with timerArmed := true },
         evs ++ [CamEvent.hwTrigger 1,
                 CamEvent.timerArm
                   (s1.exposureRequest * 1000 + s1.downloadEstimation * s1.timeoutFactor)])

/-- Modelled from the spec: m_CaptureTimeout is an INDI::Timer (framework code
not in the sources); per the spec it is a single-shot timer whose callback is
captureTimeoutHandler, and a timer that has been stopped (disarmed) does not
deliver its callback, so a firing is a no-op unless the timer is armed; the
firing itself consumes the single-shot arming. -/
def fireCaptureTimeout (snapOk trigOk : Bool) (s : CamState) :
    CamState × List CamEvent :=
  if s.timerArmed then captureTimeoutHandler snapOk trigOk { s with timerArmed := false }
  else (s, [])

/-- The RGB de-interleave loop of pushCallback and eventPullCallBack: for
i = 0, 3, 6, … up to totalSize = width * height * 3 - 3, the byte at i goes to
the R plane, at i + 1 to the G plane, at i + 2 to the B plane, each plane
advancing one byte per iteration. -/
def deinterleave3 : List Nat → List Nat × List Nat × List Nat
| r :: g :: b :: rest =>
  let p := deinterleave3 rest
  (r :: p.1, g :: p.2.1, b :: p.2.2)
| _ => ([], [], [])

/-- Reassembly of three planes into one interleaved RGB buffer, one byte from
each plane per pixel. -/
def interleave3 : List Nat → List Nat → List Nat → List Nat
| r :: rs, g :: gs, b :: bs => r :: g :: b :: interleave3 rs gs bs
| _, _, _ => []

/-- Relevant video format selection: TC_VIDEO_COLOR_RGB or any other
(raw/mono) format. -/
inductive VideoFormat
| rgb
| raw
deriving DecidableEq, Repr

/-- Frame-delivery events: routing a frame to the streamer,
PrimaryCCD.setExposureFailed, ExposureComplete, and the Flush call issued
when an image event arrives with no exposure in flight. -/
inductive FrameEvent
| newStreamFrame
| exposureFailedSignal
| exposureCompleteSignal
| flushCall
deriving DecidableEq, Repr

/-- Frame-delivery state of ToupBase: streaming/recording flag, InExposure,
m_CaptureTimeoutCounter, whether m_CaptureTimeout is armed,
m_DownloadEstimation and the MIN_DOWNLOAD_ESTIMATION floor (ms), the computed
ExposureEnd timestamp (ms), the PrimaryCCD frame buffer and its size,
m_MonoCamera, the current video format, and the geometry fields read by the
de-interleave (XRes, YRes, SubW, SubH, BinX, BinY, BPP). -/
structure FrameState where
  streaming : Bool
  inExposure : Bool
  captureTimeoutCounter : Nat
  timerArmed : Bool
  downloadEstimation : ℚ
  minDownloadEstimation : ℚ
  exposureEnd : ℚ
  frameBuffer : List Nat
  frameBufferSize : Nat
  monoCamera : Bool
  videoFormat : VideoFormat
  xres : Nat
  yres : Nat
  subW : Nat
  subH : Nat
  binX : Nat
  binY : Nat
  bpp : Nat
deriving DecidableEq, Repr

/-- The condition m_MonoCamera == false && m_CurrentVideoFormat ==
TC_VIDEO_COLOR_RGB guarding the scratch-buffer/de-interleave path. -/
def colorRGBFrame (s : FrameState) : Bool :=
  !s.monoCamera && decide (s.videoFormat = VideoFormat.rgb)

/-- A memcpy of size bytes from src into dst (bytes of src past its end are
unspecified memory, modelled as 0): the first size bytes of dst are replaced,
the rest keep their value. -/
def memcpyBytes (dst src : List Nat) (size : Nat) : List Nat :=
  ((List.range size).map fun i => src.getD i 0) ++ dst.drop size

/-- ToupBase::pushCallback with the SDK pixel data as pData at callback time
now (ms): streaming frames go to the streamer; otherwise, during an exposure,
reset the timeout counter, stop the capture timeout, update
m_DownloadEstimation to now - ExposureEnd floored at MIN_DOWNLOAD_ESTIMATION,
clear InExposure, then: a null pData marks the exposure failed; otherwise
size bytes are copied (for a color RGB camera into a scratch buffer of
XRes * YRes * 3 bytes which is then de-interleaved into the R, G and B planes
of the frame buffer over width * height pixels with width =
SubW / BinX * (BPP / 8) and height = SubH / BinY * (BPP / 8); for all other
formats directly into the frame buffer over frameBufferSize bytes) and
ExposureComplete is signalled. -/
def pushCallback (s : FrameState) (now : ℚ) (pData : Option (List Nat)) :
    FrameState × List FrameEvent :=
  if s.streaming then (s, [FrameEvent.newStreamFrame])
  else if s.inExposure then
    let est := now - s.exposureEnd
    let s1 := { s with
      captureTimeoutCounter := 0, timerArmed := false,
      downloadEstimation := if est < s.minDownloadEstimation then s.minDownloadEstimation else est,
      inExposure := false }
    let size := if colorRGBFrame s1 then s1.xres * s1.yres * 3 else s1.frameBufferSize
    match pData with
    | none => (s1, [FrameEvent.exposureFailedSignal])
    | some data =>
      if colorRGBFrame s1 then
        let scratch := memcpyBytes (List.replicate size 0) data size
        let width := s1.subW / s1.binX * (s1.bpp / 8)
        let height := s1.subH / s1.binY * (s1.bpp / 8)
        let p := deinterleave3 (scratch.take (width * height * 3))
        ({ s1 with frameBuffer :=
            p.1 ++ p.2.1 ++ p.2.2 ++ s1.frameBuffer.drop (width * height * 3) },
         [FrameEvent.exposureCompleteSignal])
      else
        ({ s1 with frameBuffer := memcpyBytes s1.frameBuffer data size },
         [FrameEvent.exposureCompleteSignal])
  else (s, [])

/-- The CP(EVENT_IMAGE) arm of ToupBase::eventPullCallBack at callback time
now (ms): first, unconditionally, reset the timeout counter, stop the capture
timeout and update m_DownloadEstimation to now - ExposureEnd floored at
MIN_DOWNLOAD_ESTIMATION (the update precedes every pull attempt); then pull
the image via PullImageV2, whose result is pullOk and whose delivered bytes
are pulled (on a failed pull the destination contents are left unmodelled).
While streaming the frame buffer is filled and routed to the streamer on a
successful pull; during an exposure, InExposure is cleared and the image is
pulled into the frame buffer (or, for a color RGB camera, into a scratch
buffer of XRes * YRes * 3 bytes that is then de-interleaved into the R, G and
B planes exactly as in pushCallback): a failed pull marks the exposure
failed, a successful one signals ExposureComplete; with no exposure in
flight the image is flushed. m_TimeoutRetries, also zeroed here, belongs to
the exposure-machine record CamState and is not a field of FrameState. -/
def eventPullCallBackImage (s : FrameState) (now : ℚ) (pullOk : Bool)
    (pulled : List Nat) : FrameState × List FrameEvent :=
  let est := now - s.exposureEnd
  let s1 := { s with
    captureTimeoutCounter := 0, timerArmed := false,
    downloadEstimation := if est < s.minDownloadEstimation then s.minDownloadEstimation else est }
  if s1.streaming then
    if pullOk then
      ({ s1 with frameBuffer := memcpyBytes s1.frameBuffer pulled s1.frameBufferSize },
       [FrameEvent.newStreamFrame])
    else (s1, [])
  else if s1.inExposure then
    let s2 := { s1 with inExposure := false }
    if colorRGBFrame s2 then
      if pullOk = false then (s2, [FrameEvent.exposureFailedSignal])
      else
        let size := s2.xres * s2.yres * 3
        let scratch := memcpyBytes (List.replicate size 0) pulled size
        let width := s2.subW / s2.binX * (s2.bpp / 8)
        let height := s2.subH / s2.binY * (s2.bpp / 8)
        let p := deinterleave3 (scratch.take (width * height * 3))
        ({ s2 with frameBuffer :=
            p.1 ++ p.2.1 ++ p.2.2 ++ s2.frameBuffer.drop (width * height * 3) },
         [FrameEvent.exposureCompleteSignal])
    else
      if pullOk = false then (s2, [FrameEvent.exposureFailedSignal])
      else
        ({ s2 with frameBuffer := memcpyBytes s2.frameBuffer pulled s2.frameBufferSize },
         [FrameEvent.exposureCompleteSignal])
  else (s1, [FrameEvent.flushCall])

/-- INDI property states returned by the guide entry points. -/
inductive IPStateVal
| idle
| ok
| busy
| alert
deriving DecidableEq, Repr

/-- ST4 guide directions (eGUIDEDIRECTION). -/
inductive GuideDirection
| north
| south
| east
| west
deriving DecidableEq, Repr

/-- Events of the guide-pulse timers: the GuideComplete signal per axis,
IERmTimer / IEAddTimer, the ST4PlusGuide relay command and the synchronous
usleep of sub-50 ms pulses. -/
inductive GuideEvent
| guideCompleteNS
| guideCompleteWE
| rmTimer (id : Int)
| addTimer (ms : Nat)
| st4Pulse (dir : GuideDirection) (ms : Nat)
| usleepCall (us : Nat)
deriving DecidableEq, Repr

/-- Per-axis guide state: the one-shot timer id (-1 when none is pending) and
the last direction. -/
structure GuideAxisState where
  timerID : Int
  dir : GuideDirection
deriving DecidableEq, Repr

/-- ToupBase::stopTimerNS: when a NS timer is pending, signal
GuideComplete(AXIS_DE), remove the timer and clear the id. -/
def stopTimerNS (s : GuideAxisState) : GuideAxisState × List GuideEvent :=
  if s.timerID ≠ -1 then
    ({ s with timerID := -1 }, [GuideEvent.guideCompleteNS, GuideEvent.rmTimer s.timerID])
  else (s, [])

/-- ToupBase::guidePulseNS: stop any pending NS timer, record the direction,
issue ST4PlusGuide (result st4Ok); on failure return IPS_ALERT; for pulses
under 50 ms sleep synchronously and return IPS_OK; otherwise schedule a
one-shot timer (id newTimerID) and return IPS_BUSY. -/
def guidePulseNS (st4Ok : Bool) (newTimerID : Int) (s : GuideAxisState)
    (ms : Nat) (dir : GuideDirection) :
    GuideAxisState × List GuideEvent × IPStateVal :=
  let r := stopTimerNS s
  let s1 := { r.1 with dir := dir }
  if st4Ok = false then
    (s1, r.2 ++ [GuideEvent.st4Pulse dir ms], IPStateVal.alert)
  else if ms < 50 then
    (s1, r.2 ++ [GuideEvent.st4Pulse dir ms, GuideEvent.usleepCall (ms * 1000)], IPStateVal.ok)
  else
    ({ s1 with timerID := newTimerID },
     r.2 ++ [GuideEvent.st4Pulse dir ms, GuideEvent.addTimer ms], IPStateVal.busy)

/-- ToupBase::stopTimerWE: when a WE timer is pending, signal
GuideComplete(AXIS_RA), remove the timer and clear the id. -/
def stopTimerWE (s : GuideAxisState) : GuideAxisState × List GuideEvent :=
  if s.timerID ≠ -1 then
    ({ s with timerID := -1 }, [GuideEvent.guideCompleteWE, GuideEvent.rmTimer s.timerID])
  else (s, [])

/-- ToupBase::guidePulseWE: the WE counterpart of guidePulseNS. -/
def guidePulseWE (st4Ok : Bool) (newTimerID : Int) (s : GuideAxisState)
    (ms : Nat) (dir : GuideDirection) :
    GuideAxisState × List GuideEvent × IPStateVal :=
  let r := stopTimerWE s
  let s1 := { r.1 with dir := dir }
  if st4Ok = false then
    (s1, r.2 ++ [GuideEvent.st4Pulse dir ms], IPStateVal.alert)
  else if ms < 50 then
    (s1, r.2 ++ [GuideEvent.st4Pulse dir ms, GuideEvent.usleepCall (ms * 1000)], IPStateVal.ok)
  else
    ({ s1 with timerID := newTimerID },
     r.2 ++ [GuideEvent.st4Pulse dir ms, GuideEvent.addTimer ms], IPStateVal.busy)

/-- ROI events: the put_Roi hardware call with its arguments. -/
inductive RoiEvent
| putRoi (x y w h : Int)
deriving DecidableEq, Repr

/-- CCD frame/ROI state of ToupBase: sensor resolution (XRes, YRes), the
applied frame rectangle, binning, bits per pixel, m_Channels,
m_DownloadEstimation, the frame buffer size and the streamer size. -/
structure CCDFrameState where
  xres : Int
  yres : Int
  frameX : Int
  frameY : Int
  frameW : Int
  frameH : Int
  binX : Int
  binY : Int
  bpp : Int
  channels : Int
  downloadEstimation : ℚ
  frameBufferSize : Int
  streamerW : Int
  streamerH : Int
deriving DecidableEq, Repr

/-- ToupBase::UpdateCCDFrame: make x, y, w, h even by subtracting the C++
remainder by 2; reject (false, nothing applied) when the even width exceeds
XRes or the even height exceeds YRes; call put_Roi (result putRoiOk, false on
failure with nothing further applied); on success set the frame to the even
values, bump m_DownloadEstimation to 10000, recompute the buffer size
(w * h * bpp / 8) * channels and the binned streamer size, and return true. -/
def UpdateCCDFrame (putRoiOk : Bool) (s : CCDFrameState) (x y w h : Int) :
    CCDFrameState × List RoiEvent × Bool :=
  let xe := x - x.tmod 2
  let ye := y - y.tmod 2
  let we := w - w.tmod 2
  let he := h - h.tmod 2
  if s.xres < we then (s, [], false)
  else if s.yres < he then (s, [], false)
  else if putRoiOk = false then (s, [RoiEvent.putRoi xe ye we he], false)
  else
    ({ s with frameX := xe, frameY := ye, frameW := we, frameH := he,
              downloadEstimation := 10000,
              frameBufferSize := we * he * s.bpp / 8 * s.channels,
              streamerW := we / s.binX, streamerH := he / s.binY },
     [RoiEvent.putRoi xe ye we he], true)

end ToupBase

namespace ToupBase

/-- C4: dualGainEnabled returns true iff the hardware supports dual gain, the
HCG/LCG ratio is strictly greater than 1.0001, and the conversion-gain mode is
not HDR; in particular it is false whenever ratio ≤ 1.0001 or the mode is HDR. -/
theorem dualGainEnabled_spec (hasDualGain : Bool) (st : GainState)
    (hone : oneHotGain st.switches) :
    dualGainEnabled hasDualGain st = true ↔
      (hasDualGain = true ∧ (10001 : ℚ) / 10000 < st.hcgLcgRatio ∧
        st.switches ≠ { resetGainSwitches with hdr := ISState.on }) := by
  obtain h | h | h := hone <;>
    simp [dualGainEnabled, h, resetGainSwitches]

/-- C4 witness: with hardware dual-gain support, ratio 4.5 and mode Low the
feature is enabled. -/
theorem dualGainEnabled_spec_witness :
    oneHotGain (⟨ISState.on, ISState.off, ISState.off⟩ : GainConversionSwitches) ∧
    (dualGainEnabled true ⟨⟨ISState.on, ISState.off, ISState.off⟩, 900, 9 / 2, 0⟩ = true ↔
      (true = true ∧ (10001 : ℚ) / 10000 < (9 : ℚ) / 2 ∧
        (⟨ISState.on, ISState.off, ISState.off⟩ : GainConversionSwitches) ≠
          { resetGainSwitches with hdr := ISState.on })) :=
  ⟨by decide,
   dualGainEnabled_spec true ⟨⟨ISState.on, ISState.off, ISState.off⟩, 900, 9 / 2, 0⟩ (by decide)⟩

/-- C3: for every threshold and ratio > 1, from any well-formed mode,
setDualGainMode with gain at or above the threshold leaves the mode High and
returns (and records as native gain) the requested gain divided by the ratio,
and with gain below the threshold leaves the mode Low and returns the gain
unchanged. -/
theorem setDualGainMode_spec (st : GainState) (gain : ℚ)
    (hone : oneHotGain st.switches) (hratio : 1 < st.hcgLcgRatio) :
    (st.hcgThreshold ≤ gain →
      (setDualGainMode st gain).1.switches = { resetGainSwitches with high := ISState.on } ∧
      (setDualGainMode st gain).2 = gain / st.hcgLcgRatio ∧
      (setDualGainMode st gain).1.nativeGain = gain / st.hcgLcgRatio) ∧
    (gain < st.hcgThreshold →
      (setDualGainMode st gain).1.switches = { resetGainSwitches with low := ISState.on } ∧
      (setDualGainMode st gain).2 = gain ∧
      (setDualGainMode st gain).1.nativeGain = gain) := by
  constructor
  · intro hg
    have hn : ¬ gain < st.hcgThreshold := not_lt.mpr hg
    obtain h | h | h := hone <;>
      simp [setDualGainMode, h, resetGainSwitches, hg, hn]
  · intro hg
    have hn : ¬ st.hcgThreshold ≤ gain := not_le.mpr hg
    obtain h | h | h := hone <;>
      simp [setDualGainMode, h, resetGainSwitches, hg, hn]

/-- C3 witness (the spec scenario): ratio 4.5, threshold 900, requested gain
1000, starting from Low: the mode becomes High and the returned native gain is
1000 / 4.5 = 2000/9, which lies between 222 and 223. -/
theorem setDualGainMode_spec_witness :
    ((900 : ℚ) ≤ 1000) ∧
    (setDualGainMode ⟨⟨ISState.on, ISState.off, ISState.off⟩, 900, 9 / 2, 0⟩ 1000).1.switches =
      { resetGainSwitches with high := ISState.on } ∧
    (setDualGainMode ⟨⟨ISState.on, ISState.off, ISState.off⟩, 900, 9 / 2, 0⟩ 1000).2 =
      (1000 : ℚ) / (9 / 2) ∧
    ((1000 : ℚ) / (9 / 2) = 2000 / 9 ∧ (222 : ℚ) ≤ 2000 / 9 ∧ (2000 : ℚ) / 9 < 223) := by
  have h := setDualGainMode_spec ⟨⟨ISState.on, ISState.off, ISState.off⟩, 900, 9 / 2, 0⟩ 1000
    (by decide) (by norm_num)
  exact ⟨by norm_num, (h.1 (by norm_num)).1, (h.1 (by norm_num)).2.1, by norm_num⟩

/-- C6: AbortExposure, from any state, cancels the hardware trigger
(Trigger(handle, 0)), clears the in-exposure flag, zeroes both the retry
counter and the timeout counter, stops the capture timeout timer, and
always returns true. -/
theorem AbortExposure_spec (s : CamState) :
    (AbortExposure s).2.2 = true ∧
    (AbortExposure s).2.1 = [CamEvent.hwTrigger 0] ∧
    (AbortExposure s).1.inExposure = false ∧
    (AbortExposure s).1.timeoutRetries = 0 ∧
    (AbortExposure s).1.captureTimeoutCounter = 0 ∧
    (AbortExposure s).1.timerArmed = false := by
  simp [AbortExposure]

/-- C5: after AbortExposure has run, a capture-timeout firing that was already
scheduled and arrives late is a no-op: the state is unchanged and no event is
emitted (no failure signal, no re-trigger, no re-arm). -/
theorem abort_then_late_timeout_noop (s : CamState) (snapOk trigOk : Bool) :
    fireCaptureTimeout snapOk trigOk (AbortExposure s).1 = ((AbortExposure s).1, []) := by
  simp [AbortExposure, fireCaptureTimeout]

/-- C1: starting from an in-flight exposure (timer armed, timeout counter 0)
with the hardware accepting snap/trigger, the first two timeout firings each
increment the counter, re-issue the trigger and re-arm the timeout with the
same window ExposureRequest * 1000 + m_DownloadEstimation * timeout factor,
and emit no failure; the third firing emits exactly one exposure-failed
signal, resets the counter to 0 and leaves the timer disarmed, so across the
three firings there are exactly two re-triggers (three attempts in total) and
exactly one failure signal. -/
theorem captureTimeout_retry_spec (s : CamState)
    (hconn : s.connected = true) (harm : s.timerArmed = true)
    (hcnt : s.captureTimeoutCounter = 0) :
    let w := s.exposureRequest * 1000 + s.downloadEstimation * s.timeoutFactor
    let r1 := fireCaptureTimeout true true s
    let r2 := fireCaptureTimeout true true r1.1
    let r3 := fireCaptureTimeout true true r2.1
    r1.1.captureTimeoutCounter = 1 ∧
    r2.1.captureTimeoutCounter = 2 ∧
    CamEvent.hwTrigger 1 ∈ r1.2 ∧ CamEvent.timerArm w ∈ r1.2 ∧
    CamEvent.exposureFailedSignal ∉ r1.2 ∧
    CamEvent.hwTrigger 1 ∈ r2.2 ∧ CamEvent.timerArm w ∈ r2.2 ∧
    CamEvent.exposureFailedSignal ∉ r2.2 ∧
    r3.2 = [CamEvent.exposureFailedSignal] ∧
    r3.1.captureTimeoutCounter = 0 ∧
    r3.1.timerArmed = false ∧
    (r1.2 ++ r2.2 ++ r3.2).count (CamEvent.hwTrigger 1) = 2 ∧
    (r1.2 ++ r2.2 ++ r3.2).count CamEvent.exposureFailedSignal = 1 := by
  cases hsnap : s.canSnap <;>
    simp [fireCaptureTimeout, captureTimeoutHandler, hconn, harm, hcnt, hsnap,
      List.count_cons, List.count_append]

/-- C1 witness: the retry trace evaluated on a concrete in-flight state with a
one second exposure, 500 ms download estimate and timeout factor 1.2. -/
theorem captureTimeout_retry_spec_witness :
    let s : CamState := ⟨true, true, 0, 0, true, 1, 500, 6 / 5, true, 0⟩
    let w := s.exposureRequest * 1000 + s.downloadEstimation * s.timeoutFactor
    let r1 := fireCaptureTimeout true true s
    let r2 := fireCaptureTimeout true true r1.1
    let r3 := fireCaptureTimeout true true r2.1
    r1.1.captureTimeoutCounter = 1 ∧
    r2.1.captureTimeoutCounter = 2 ∧
    CamEvent.hwTrigger 1 ∈ r1.2 ∧ CamEvent.timerArm w ∈ r1.2 ∧
    CamEvent.exposureFailedSignal ∉ r1.2 ∧
    CamEvent.hwTrigger 1 ∈ r2.2 ∧ CamEvent.timerArm w ∈ r2.2 ∧
    CamEvent.exposureFailedSignal ∉ r2.2 ∧
    r3.2 = [CamEvent.exposureFailedSignal] ∧
    r3.1.captureTimeoutCounter = 0 ∧
    r3.1.timerArmed = false ∧
    (r1.2 ++ r2.2 ++ r3.2).count (CamEvent.hwTrigger 1) = 2 ∧
    (r1.2 ++ r2.2 ++ r3.2).count CamEvent.exposureFailedSignal = 1 :=
  captureTimeout_retry_spec ⟨true, true, 0, 0, true, 1, 500, 6 / 5, true, 0⟩ rfl rfl rfl

/-- Helper for C2: re-interleaving the three planes produced by the stride-3
de-interleave loop reproduces any buffer whose length is a multiple of 3. -/
theorem interleave3_deinterleave3_aux :
    ∀ (n : Nat) (l : List Nat), l.length ≤ n → l.length % 3 = 0 →
      interleave3 (deinterleave3 l).1 (deinterleave3 l).2.1 (deinterleave3 l).2.2 = l := by
  intro n
  induction n with
  | zero =>
    intro l hlen _
    have hnil : l = [] := List.length_eq_zero.mp (Nat.le_zero.mp hlen)
    subst hnil
    rfl
  | succ n ih =>
    intro l hlen hmod
    rcases l with _ | ⟨a, _ | ⟨b, _ | ⟨c, rest⟩⟩⟩
    · rfl
    · simp at hmod
    · simp at hmod
    · have h1 : rest.length ≤ n := by simp at hlen; omega
      have h2 : rest.length % 3 = 0 := by simp at hmod; omega
      simp [deinterleave3, interleave3, ih rest h1 h2]

/-- C2: for every w > 0 and h > 0, de-interleaving an interleaved RGB buffer of
w * h * 3 bytes into the R, G and B planes and re-interleaving the planes
reproduces the original buffer exactly. -/
theorem deinterleave_roundtrip (w h : Nat) (buf : List Nat)
    (hw : 0 < w) (hh : 0 < h) (hlen : buf.length = w * h * 3) :
    interleave3 (deinterleave3 buf).1 (deinterleave3 buf).2.1 (deinterleave3 buf).2.2 = buf :=
  interleave3_deinterleave3_aux buf.length buf le_rfl
    (by simp [hlen, Nat.mul_mod_left])

/-- C2 witness: round trip on a concrete 1 x 1 interleaved buffer. -/
theorem deinterleave_roundtrip_witness :
    0 < 1 ∧ 0 < 1 ∧ ([10, 20, 30] : List Nat).length = 1 * 1 * 3 ∧
    interleave3 (deinterleave3 [10, 20, 30]).1 (deinterleave3 [10, 20, 30]).2.1
      (deinterleave3 [10, 20, 30]).2.2 = [10, 20, 30] :=
  ⟨by decide, by decide, by decide,
   deinterleave_roundtrip 1 1 [10, 20, 30] (by decide) (by decide) (by decide)⟩

/-- C7 (amended): a push callback delivering a null pixel pointer during an
exposure (not streaming) marks the exposure failed immediately and does nothing
else in that callback: the only emitted signal is the failure signal (no
completion, no retry) and the frame buffer is left untouched. The zero-size or
short non-null input case is NOT detected by the code: see the counterexample
pushCallback_zero_size_not_failed. -/
theorem pushCallback_null_fails (s : FrameState) (now : ℚ)
    (hstream : s.streaming = false) (hexp : s.inExposure = true) :
    (pushCallback s now none).2 = [FrameEvent.exposureFailedSignal] ∧
    (pushCallback s now none).1.frameBuffer = s.frameBuffer := by
  simp [pushCallback, hstream, hexp]

/-- C7 witness: the null-delivery branch evaluated on a concrete mono-camera
state. -/
theorem pushCallback_null_fails_witness :
    let cs : FrameState := ⟨false, true, 0, true, 0, 500, 0, [1, 2, 3, 4], 4, true,
      VideoFormat.raw, 2, 2, 2, 2, 1, 1, 8⟩
    cs.streaming = false ∧ cs.inExposure = true ∧
    (pushCallback cs 7 none).2 = [FrameEvent.exposureFailedSignal] ∧
    (pushCallback cs 7 none).1.frameBuffer = cs.frameBuffer :=
  ⟨rfl, rfl,
   pushCallback_null_fails
     ⟨false, true, 0, true, 0, 500, 0, [1, 2, 3, 4], 4, true,
       VideoFormat.raw, 2, 2, 2, 2, 1, 1, 8⟩ 7 rfl rfl⟩

/-- C7 counterexample: a zero-size (empty, non-null) delivery during an
exposure is NOT treated as failure: the driver copies the configured frame
size anyway (reading past the provided data, modelled as 0 bytes), overwrites
the frame buffer, emits the completion signal, and emits no failure signal. -/
theorem pushCallback_zero_size_not_failed :
    let cs : FrameState := ⟨false, true, 0, true, 0, 500, 0, [1, 2, 3, 4], 4, true,
      VideoFormat.raw, 2, 2, 2, 2, 1, 1, 8⟩
    (pushCallback cs 0 (some [])).2 = [FrameEvent.exposureCompleteSignal] ∧
    FrameEvent.exposureFailedSignal ∉ (pushCallback cs 0 (some [])).2 ∧
    (pushCallback cs 0 (some [])).1.frameBuffer = [0, 0, 0, 0] ∧
    cs.frameBuffer = [1, 2, 3, 4] := by
  decide

/-- C9 (amended): on both delivery paths — the push callback and the
pull-on-image-event path — every frame delivery that arrives while an
exposure is in flight (not streaming) updates the download estimate to the
elapsed time between the callback and the computed exposure end, floored at
the configured minimum, whether or not the delivery succeeds (the update
precedes the null-pointer and pull-failure checks); in particular after
every successful delivery the estimate is at least the configured minimum. -/
theorem downloadEstimation_update_spec (s : FrameState) (now : ℚ)
    (pData : Option (List Nat)) (pullOk : Bool) (pulled : List Nat)
    (hstream : s.streaming = false) (hexp : s.inExposure = true) :
    ((pushCallback s now pData).1.downloadEstimation =
      (if now - s.exposureEnd < s.minDownloadEstimation then s.minDownloadEstimation
       else now - s.exposureEnd) ∧
     s.minDownloadEstimation ≤ (pushCallback s now pData).1.downloadEstimation) ∧
    ((eventPullCallBackImage s now pullOk pulled).1.downloadEstimation =
      (if now - s.exposureEnd < s.minDownloadEstimation then s.minDownloadEstimation
       else now - s.exposureEnd) ∧
     s.minDownloadEstimation ≤
       (eventPullCallBackImage s now pullOk pulled).1.downloadEstimation) := by
  have hfloor : ∀ est lo : ℚ, lo ≤ if est < lo then lo else est := by
    intro est lo
    split
    · exact le_refl lo
    · exact le_of_not_lt ‹_›
  have hpush : (pushCallback s now pData).1.downloadEstimation =
      (if now - s.exposureEnd < s.minDownloadEstimation then s.minDownloadEstimation
       else now - s.exposureEnd) := by
    cases pData with
    | none => simp [pushCallback, hstream, hexp]
    | some data =>
      simp [pushCallback, hstream, hexp]
      split <;> split <;> rfl
  have hpull : (eventPullCallBackImage s now pullOk pulled).1.downloadEstimation =
      (if now - s.exposureEnd < s.minDownloadEstimation then s.minDownloadEstimation
       else now - s.exposureEnd) := by
    simp [eventPullCallBackImage, hstream, hexp]
    split_ifs <;> rfl
  exact ⟨⟨hpush, hpush ▸ hfloor (now - s.exposureEnd) s.minDownloadEstimation⟩,
         ⟨hpull, hpull ▸ hfloor (now - s.exposureEnd) s.minDownloadEstimation⟩⟩

/-- C9 witness: a successful concrete delivery arriving 50 ms after the
exposure end with a 500 ms configured minimum updates the estimate to the
floor value 500, on the push path and on the pull path alike. -/
theorem downloadEstimation_update_spec_witness :
    let cs : FrameState := ⟨false, true, 0, true, 0, 500, 2000, [9, 9], 2, true,
      VideoFormat.raw, 1, 1, 1, 1, 1, 1, 16⟩
    cs.streaming = false ∧ cs.inExposure = true ∧
    (((pushCallback cs 2050 (some [7, 8])).1.downloadEstimation =
       (if (2050 : ℚ) - cs.exposureEnd < cs.minDownloadEstimation then cs.minDownloadEstimation
        else 2050 - cs.exposureEnd) ∧
      cs.minDownloadEstimation ≤ (pushCallback cs 2050 (some [7, 8])).1.downloadEstimation) ∧
     ((eventPullCallBackImage cs 2050 true [7, 8]).1.downloadEstimation =
       (if (2050 : ℚ) - cs.exposureEnd < cs.minDownloadEstimation then cs.minDownloadEstimation
        else 2050 - cs.exposureEnd) ∧
      cs.minDownloadEstimation ≤
        (eventPullCallBackImage cs 2050 true [7, 8]).1.downloadEstimation)) :=
  ⟨rfl, rfl,
   downloadEstimation_update_spec
     ⟨false, true, 0, true, 0, 500, 2000, [9, 9], 2, true,
       VideoFormat.raw, 1, 1, 1, 1, 1, 1, 16⟩ 2050 (some [7, 8]) true [7, 8] rfl rfl⟩

/-- C9 counterexample: the estimate is NOT updated only on successful
deliveries — a null-pointer (failed) delivery also updates it: here the
failure signal is emitted yet the estimate changes from 0 to the 500 ms
floor. -/
theorem downloadEstimation_updated_on_failed_delivery :
    let cs : FrameState := ⟨false, true, 0, true, 0, 500, 0, [5, 6], 2, true,
      VideoFormat.raw, 1, 1, 1, 1, 1, 1, 16⟩
    (pushCallback cs 0 none).2 = [FrameEvent.exposureFailedSignal] ∧
    (pushCallback cs 0 none).1.downloadEstimation = 500 ∧
    cs.downloadEstimation = 0 := by
  exact ⟨rfl, by norm_num [pushCallback], rfl⟩

/-- C8: on each guiding axis, starting a new pulse while one is pending
first force-completes the pending pulse — its guide-complete signal is emitted
and its timer removed — before the new pulse's ST4 relay command is issued. -/
theorem guidePulse_completes_pending_first (sN sW : GuideAxisState)
    (okN okW : Bool) (nN nW : Int) (msN msW : Nat) (dN dW : GuideDirection)
    (hN : sN.timerID ≠ -1) (hW : sW.timerID ≠ -1) :
    (∃ rest, (guidePulseNS okN nN sN msN dN).2.1 =
      GuideEvent.guideCompleteNS :: GuideEvent.rmTimer sN.timerID ::
        GuideEvent.st4Pulse dN msN :: rest) ∧
    (∃ rest, (guidePulseWE okW nW sW msW dW).2.1 =
      GuideEvent.guideCompleteWE :: GuideEvent.rmTimer sW.timerID ::
        GuideEvent.st4Pulse dW msW :: rest) := by
  constructor
  · simp only [guidePulseNS, stopTimerNS, if_pos hN]
    split_ifs <;> exact ⟨_, rfl⟩
  · simp only [guidePulseWE, stopTimerWE, if_pos hW]
    split_ifs <;> exact ⟨_, rfl⟩

/-- C8 witness: concrete pending pulses on both axes, force-completed before
the new relay commands. -/
theorem guidePulse_completes_pending_first_witness :
    (5 : Int) ≠ -1 ∧ (7 : Int) ≠ -1 ∧
    (∃ rest, (guidePulseNS true 9 ⟨5, GuideDirection.north⟩ 100 GuideDirection.south).2.1 =
      GuideEvent.guideCompleteNS :: GuideEvent.rmTimer 5 ::
        GuideEvent.st4Pulse GuideDirection.south 100 :: rest) ∧
    (∃ rest, (guidePulseWE true 11 ⟨7, GuideDirection.east⟩ 10 GuideDirection.west).2.1 =
      GuideEvent.guideCompleteWE :: GuideEvent.rmTimer 7 ::
        GuideEvent.st4Pulse GuideDirection.west 10 :: rest) :=
  ⟨by decide, by decide,
   (guidePulse_completes_pending_first ⟨5, GuideDirection.north⟩ ⟨7, GuideDirection.east⟩
     true true 9 11 100 10 GuideDirection.south GuideDirection.west
     (by decide) (by decide)).1,
   (guidePulse_completes_pending_first ⟨5, GuideDirection.north⟩ ⟨7, GuideDirection.east⟩
     true true 9 11 100 10 GuideDirection.south GuideDirection.west
     (by decide) (by decide)).2⟩

/-- C10: for nonnegative requested ROI values, UpdateCCDFrame first rounds
x, y, w, h down to the nearest even numbers; when the rounded width exceeds
XRes or the rounded height exceeds YRes it returns false without calling
put_Roi or changing any state; otherwise, when put_Roi succeeds, it returns
true and the applied ROI consists exactly of the rounded even values. -/
theorem UpdateCCDFrame_spec (putRoiOk : Bool) (s : CCDFrameState) (x y w h : Int)
    (hx : 0 ≤ x) (hy : 0 ≤ y) (hw : 0 ≤ w) (hh : 0 ≤ h) :
    let xe := x - x.tmod 2
    let ye := y - y.tmod 2
    let we := w - w.tmod 2
    let he := h - h.tmod 2
    (xe % 2 = 0 ∧ xe ≤ x ∧ x < xe + 2 ∧
     ye % 2 = 0 ∧ ye ≤ y ∧ y < ye + 2 ∧
     we % 2 = 0 ∧ we ≤ w ∧ w < we + 2 ∧
     he % 2 = 0 ∧ he ≤ h ∧ h < he + 2) ∧
    ((s.xres < we ∨ s.yres < he) →
      (UpdateCCDFrame putRoiOk s x y w h).2.2 = false ∧
      (UpdateCCDFrame putRoiOk s x y w h).1 = s ∧
      (UpdateCCDFrame putRoiOk s x y w h).2.1 = []) ∧
    (we ≤ s.xres → he ≤ s.yres → putRoiOk = true →
      (UpdateCCDFrame putRoiOk s x y w h).2.2 = true ∧
      (UpdateCCDFrame putRoiOk s x y w h).1.frameX = xe ∧
      (UpdateCCDFrame putRoiOk s x y w h).1.frameY = ye ∧
      (UpdateCCDFrame putRoiOk s x y w h).1.frameW = we ∧
      (UpdateCCDFrame putRoiOk s x y w h).1.frameH = he ∧
      (UpdateCCDFrame putRoiOk s x y w h).2.1 = [RoiEvent.putRoi xe ye we he]) := by
  have hx2 : x.tmod 2 = x % 2 := Int.tmod_eq_emod hx (by norm_num)
  have hy2 : y.tmod 2 = y % 2 := Int.tmod_eq_emod hy (by norm_num)
  have hw2 : w.tmod 2 = w % 2 := Int.tmod_eq_emod hw (by norm_num)
  have hh2 : h.tmod 2 = h % 2 := Int.tmod_eq_emod hh (by norm_num)
  refine ⟨⟨?_, ?_, ?_, ?_, ?_, ?_, ?_, ?_, ?_, ?_, ?_, ?_⟩, ?_, ?_⟩ <;>
    try omega
  · intro hlt
    simp only [UpdateCCDFrame]
    rcases hlt with hlt | hlt
    · rw [if_pos hlt]
      exact ⟨rfl, rfl, rfl⟩
    · split_ifs with h1
      · exact ⟨rfl, rfl, rfl⟩
      · exact ⟨rfl, rfl, rfl⟩
  · intro h1 h2 hok
    simp only [UpdateCCDFrame]
    rw [if_neg (not_lt.mpr h1), if_neg (not_lt.mpr h2), hok]
    simp

/-- C10 witness: requesting the ROI (3, 5, 11, 7) on a 100 x 80 sensor applies
the rounded even ROI (2, 4, 10, 6) and succeeds. -/
theorem UpdateCCDFrame_spec_witness :
    let s0 : CCDFrameState := ⟨100, 80, 0, 0, 0, 0, 1, 1, 8, 1, 0, 0, 0, 0⟩
    (0 : Int) ≤ 3 ∧ (0 : Int) ≤ 5 ∧ (0 : Int) ≤ 11 ∧ (0 : Int) ≤ 7 ∧
    (let xe := (3 : Int) - (3 : Int).tmod 2
     let ye := (5 : Int) - (5 : Int).tmod 2
     let we := (11 : Int) - (11 : Int).tmod 2
     let he := (7 : Int) - (7 : Int).tmod 2
     (xe % 2 = 0 ∧ xe ≤ 3 ∧ (3 : Int) < xe + 2 ∧
      ye % 2 = 0 ∧ ye ≤ 5 ∧ (5 : Int) < ye + 2 ∧
      we % 2 = 0 ∧ we ≤ 11 ∧ (11 : Int) < we + 2 ∧
      he % 2 = 0 ∧ he ≤ 7 ∧ (7 : Int) < he + 2) ∧
     ((s0.xres < we ∨ s0.yres < he) →
       (UpdateCCDFrame true s0 3 5 11 7).2.2 = false ∧
       (UpdateCCDFrame true s0 3 5 11 7).1 = s0 ∧
       (UpdateCCDFrame true s0 3 5 11 7).2.1 = []) ∧
     (we ≤ s0.xres → he ≤ s0.yres → true = true →
       (UpdateCCDFrame true s0 3 5 11 7).2.2 = true ∧
       (UpdateCCDFrame true s0 3 5 11 7).1.frameX = xe ∧
       (UpdateCCDFrame true s0 3 5 11 7).1.frameY = ye ∧
       (UpdateCCDFrame true s0 3 5 11 7).1.frameW = we ∧
       (UpdateCCDFrame true s0 3 5 11 7).1.frameH = he ∧
       (UpdateCCDFrame true s0 3 5 11 7).2.1 = [RoiEvent.putRoi xe ye we he])) :=
  ⟨by decide, by decide, by decide, by decide,
   UpdateCCDFrame_spec true ⟨100, 80, 0, 0, 0, 0, 1, 1, 8, 1, 0, 0, 0, 0⟩ 3 5 11 7
     (by decide) (by decide) (by decide) (by decide)⟩

end ToupBase
